import Mathlib

/-!
Shallow embedding of the movie-catalog server (routes/movies.ts, services/store.ts,
services/thirdParty.ts).  Pure request-handling logic is translated into Lean
functions; external effects (file system, JSON parsing, the third-party HTTP fetch,
the JS Date parser, the clock) are passed in as explicit parameters so that each
handler becomes a total function of its inputs.
-/

/-- The normalized record shape shared by every component
(`{ id, title, year, source }` from `types/movie`). -/
structure Movie where
  id : String
  title : String
  year : Int
  source : String
deriving DecidableEq, Repr

/-- JavaScript numbers as far as the handlers observe them: a finite rational,
`NaN`, or a signed infinity. -/
inductive JSNum where
  | rat (q : ℚ)
  | nan
  | inf
  | negInf
deriving DecidableEq, Repr

/-- `Math.max` for two arguments: `NaN` if either argument is `NaN`. -/
def jsMax : JSNum → JSNum → JSNum
  | .nan, _ => .nan
  | _, .nan => .nan
  | .inf, _ => .inf
  | _, .inf => .inf
  | .negInf, b => b
  | a, .negInf => a
  | .rat p, .rat q => .rat (max p q)

/-- `Math.min` for two arguments: `NaN` if either argument is `NaN`. -/
def jsMin : JSNum → JSNum → JSNum
  | .nan, _ => .nan
  | _, .nan => .nan
  | .negInf, _ => .negInf
  | _, .negInf => .negInf
  | .inf, b => b
  | a, .inf => a
  | .rat p, .rat q => .rat (min p q)

/-- A JavaScript runtime value, as far as the create handler inspects request
bodies (`typeof` and truthiness). -/
inductive JSVal where
  | undef
  | nullv
  | boolv (b : Bool)
  | numv (n : JSNum)
  | strv (s : String)
deriving DecidableEq, Repr

/-- JavaScript truthiness: `undefined`, `null`, `false`, `0`, `NaN` and `""`
are falsy, everything else here is truthy. -/
def truthy : JSVal → Bool
  | .undef => false
  | .nullv => false
  | .boolv b => b
  | .numv (.rat q) => decide (q ≠ 0)
  | .numv .nan => false
  | .numv .inf => true
  | .numv .negInf => true
  | .strv s => !s.isEmpty

/-- `typeof v === "number"` (true for `NaN` and the infinities as well). -/
def isNumberType : JSVal → Bool
  | .numv _ => true
  | _ => false

/-- The value `v` is a non-empty string (the spec's validation wording). -/
def isNonEmptyString : JSVal → Bool
  | .strv s => !s.isEmpty
  | _ => false

/-- The value `v` is a finite number (the spec's validation wording). -/
def isFiniteNumber : JSVal → Bool
  | .numv (.rat _) => true
  | _ => false

/-- `String.prototype.toLowerCase`, modelled character-wise (agrees with the
JS function on ASCII text). -/
def jsToLower (s : String) : String :=
  String.mk (s.data.map Char.toLower)

/-- Does `s` start with `pat`? (Helper for substring containment.) -/
def listStartsWith : List Char → List Char → Bool
  | _, [] => true
  | [], _ :: _ => false
  | c :: cs, d :: ds => c == d && listStartsWith cs ds

/-- `String.prototype.includes`, on character lists: `pat` occurs contiguously
inside `s` (the empty pattern always occurs). -/
def listContains : List Char → List Char → Bool
  | [], pat => pat.isEmpty
  | c :: cs, pat => listStartsWith (c :: cs) pat || listContains cs pat

/-- `s.includes(pat)` on strings. -/
def jsIncludes (s pat : String) : Bool :=
  listContains s.data pat.data

/-- `String.prototype.trim`, modelled structurally: drop whitespace characters
from both ends (agrees with the JS function on ASCII whitespace). -/
def jsTrim (s : String) : String :=
  String.mk ((((s.data.dropWhile Char.isWhitespace).reverse).dropWhile Char.isWhitespace).reverse)

/-- The handler's title filter (routes/movies.ts, search variant):
`if (!search) return true; return title.toLowerCase().includes(search)`;
`search` is the already trimmed and lowercased query string. -/
def matchesSearch (search title : String) : Bool :=
  if search.isEmpty then true else jsIncludes (jsToLower title) search

/-- The trimmed raw search string: `String(req.query.search ?? "").trim()`. -/
def searchRawOf (searchInput : Option String) : String :=
  jsTrim (searchInput.getD "")

/-- The lowercased search key the handler filters with. -/
def searchKey (searchInput : Option String) : String :=
  jsToLower (searchRawOf searchInput)

/-- `movies.filter((m) => matchesSearch(m.title))`. -/
def filterBySearch (search : String) (movies : List Movie) : List Movie :=
  movies.filter (fun m => matchesSearch search m.title)

/-- `Array.prototype.slice(start, start + len)` for non-negative integer
arguments. -/
def jsSlice (l : List Movie) (start len : Nat) : List Movie :=
  (l.drop start).take len

/-- The `{ page, pageSize, items, meta }` response envelope of GET /movies;
`metaLocalCount` is `none` on the `third_party` branch, which omits it. -/
structure ListResponse where
  page : Nat
  pageSize : Nat
  items : List Movie
  metaSource : String
  metaSearch : String
  metaLocalCount : Option Nat
deriving DecidableEq, Repr

/-- GET /movies (routes/movies.ts, search variant), after query coercion.
`localMovies` is the result of `readLocalMovies()`; `fetchResult` is the
outcome of `fetchThirdPartyMoviesPage(page)` (`.error` models the fetch
throwing, which the surrounding try/catch turns into the 500 response). -/
def handleList (source : String) (page pageSize : Nat) (searchInput : Option String)
    (localMovies : List Movie) (fetchResult : Except String (List Movie)) :
    Except String ListResponse :=
  let searchRaw := searchRawOf searchInput
  let search := jsToLower searchRaw
  let filteredLocal := filterBySearch search localMovies
  let start := (page - 1) * pageSize
  if source = "local" then
    .ok ⟨page, pageSize, jsSlice filteredLocal start pageSize,
      "local", searchRaw, some filteredLocal.length⟩
  else if source = "third_party" then
    match fetchResult with
    | .error _ => .error "Failed to load movies"
    | .ok apiMovies =>
      let filteredApi := filterBySearch search apiMovies
      .ok ⟨page, pageSize, filteredApi.take pageSize, "third_party", searchRaw, none⟩
  else
    let localSlice := jsSlice filteredLocal start pageSize
    let remaining := pageSize - localSlice.length
    if remaining > 0 then
      match fetchResult with
      | .error _ => .error "Failed to load movies"
      | .ok apiMovies =>
        let filteredApi := filterBySearch search apiMovies
        .ok ⟨page, pageSize, localSlice ++ filteredApi.take remaining,
          "all", searchRaw, some filteredLocal.length⟩
    else
      .ok ⟨page, pageSize, localSlice ++ [], "all", searchRaw, some filteredLocal.length⟩

/-- `const page = Math.max(1, Number(req.query.page ?? 1))`; `none` models an
absent query parameter, `some n` a parameter whose `Number(...)` coercion is `n`. -/
def effPage (q : Option JSNum) : JSNum :=
  jsMax (.rat 1) (q.getD (.rat 1))

/-- `const pageSize = Math.min(50, Math.max(1, Number(req.query.pageSize ?? d)))`
where the default `d` is 12 in one variant and 25 in the other. -/
def effPageSize (dflt : JSNum) (q : Option JSNum) : JSNum :=
  jsMin (.rat 50) (jsMax (.rat 1) (q.getD dflt))

/-- The raw third-party record shape (services/thirdParty.ts): numeric
`movie_id`, optional `original_title`, `title` and `release_date`. -/
structure ThirdPartyMovie where
  movie_id : Nat
  original_title : Option String
  title : Option String
  release_date : Option String
deriving DecidableEq, Repr

/-- `normalizeThirdPartyMovie` (services/thirdParty.ts).  `parseYear` stands in
for the JS runtime's `new Date(d)` / `getFullYear()`: it returns the parsed
date's calendar year, or `none` when the date string is invalid (JS yields an
Invalid Date whose `getTime()` is `NaN`).  The code only parses when
`raw.release_date` is truthy, so an empty string also yields year 0. -/
def normalizeThirdPartyMovie (parseYear : String → Option Int)
    (raw : ThirdPartyMovie) : Movie :=
  let title := raw.original_title.getD (raw.title.getD "Untitled")
  let year : Int :=
    match raw.release_date with
    | none => 0
    | some d => if d.isEmpty then 0 else (parseYear d).getD 0
  { id := "tp_" ++ toString raw.movie_id, title := title, year := year, source := "api" }

/-- The process-wide `thirdPartyCache : Map<string, Movie>`, modelled as an
association list where the most recent `set` is at the head. -/
def Cache := List (String × Movie)

/-- `thirdPartyCache.set(movie.id, movie)`; a later `set` for the same key
shadows an earlier one. -/
def cacheSet (c : Cache) (m : Movie) : Cache :=
  (m.id, m) :: c

/-- `getCachedThirdPartyMovie` (services/thirdParty.ts):
`thirdPartyCache.get(id) ?? null`. -/
def getCachedThirdPartyMovie (c : Cache) (id : String) : Option Movie :=
  ((c : List (String × Movie)).find? (fun p => p.1 == id)).map (·.2)

/-- The caching variant of `fetchThirdPartyMoviesPage`, after the HTTP payload
arrived: `payload.data.map(normalizeThirdPartyMovie)` where normalization also
inserts each movie into the cache.  Returns the normalized list and the
updated cache. -/
def normalizePageIntoCache (parseYear : String → Option Int)
    (raws : List ThirdPartyMovie) (c : Cache) : List Movie × Cache :=
  raws.foldl
    (fun acc raw =>
      let m := normalizeThirdPartyMovie parseYear raw
      (acc.1 ++ [m], cacheSet acc.2 m))
    (([] : List Movie), c)

/-- Response of GET /movies/:id. -/
inductive DetailResp where
  | found (m : Movie)
  | notFound (msg : String)
deriving DecidableEq, Repr

/-- `findLocalMovieById` (services/store.ts):
`movies.find((m) => m.id === id) ?? null` over the current local collection. -/
def findLocalMovieById (locals : List Movie) (id : String) : Option Movie :=
  locals.find? (fun m => m.id == id)

/-- GET /movies/:id (routes/movies.ts): return the first local movie whose id
matches, else 404 `{error:"Movie not found"}`.  The handler consults only the
local store; it never reads the third-party cache. -/
def getByIdHandler (locals : List Movie) (id : String) : DetailResp :=
  match findLocalMovieById locals id with
  | some m => .found m
  | none => .notFound "Movie not found"

/-- State of the backing document `data/movies.json` as seen by
`readLocalMovies` (services/store.ts): the file may be missing, unreadable, or
hold some raw text. -/
inductive LocalDoc where
  | missing
  | unreadable
  | content (raw : String)

/-- Outcome of `JSON.parse` on the raw text, as far as the store inspects it:
an array of movies, or some other JSON value (`Array.isArray` fails). -/
inductive ParsedJson where
  | arr (movies : List Movie)
  | nonArray

/-- `readLocalMovies` (services/store.ts): read the file, `JSON.parse` it,
return `[]` unless the result is an array.  `parseJson` stands in for
`JSON.parse`, with `none` modelling a parse exception; a read failure or parse
exception lands in the `catch`, which also returns `[]` — the function never
raises (it is total). -/
def readLocalMovies (parseJson : String → Option ParsedJson) (doc : LocalDoc) :
    List Movie :=
  match doc with
  | .missing => []
  | .unreadable => []
  | .content raw =>
    match parseJson raw with
    | none => []
    | some .nonArray => []
    | some (.arr ms) => ms

/-- Response of POST /movies. -/
inductive PostResp where
  | badRequest (msg : String)
  | created (id : String) (title year : JSVal)
deriving DecidableEq, Repr

/-- POST /movies (routes/movies.ts): `if (!title || typeof year !== "number")`
respond 400, else delegate to `createLocalMovie`, which builds
`{id: "local_" + Date.now(), title, year, source: "local"}` and is answered
with 201.  `now` stands in for `Date.now()`; title and year flow through as
the untyped runtime values the client sent. -/
def postMovies (title year : JSVal) (now : Nat) : PostResp :=
  if !(truthy title) || !(isNumberType year) then
    .badRequest "title and year are required"
  else
    .created ("local_" ++ toString now) title year

/-! ## Helper lemmas -/

theorem listContains_nil (s : List Char) : listContains s [] = true := by
  cases s <;> simp [listContains, listStartsWith]

theorem jsIncludes_empty (s : String) : jsIncludes s "" = true := by
  simpa [jsIncludes] using listContains_nil s.data

theorem jsSlice_length_le (l : List Movie) (start len : Nat) :
    (jsSlice l start len).length ≤ len := by
  simp [jsSlice, List.length_take]

theorem jsSlice_subset (l : List Movie) (start len : Nat) :
    jsSlice l start len ⊆ l :=
  fun _ h => List.mem_of_mem_drop (List.mem_of_mem_take h)

/-- The handler's `filteredLocal` variable: the movie list filtered by the
trimmed, lowercased search string. -/
def filteredLocalOf (si : Option String) (movies : List Movie) : List Movie :=
  filterBySearch (searchKey si) movies

/-- The handler's `localSlice` variable:
`filteredLocal.slice(start, start + pageSize)`. -/
def localSliceOf (si : Option String) (page pageSize : Nat) (locals : List Movie) :
    List Movie :=
  jsSlice (filteredLocalOf si locals) ((page - 1) * pageSize) pageSize

/-! ## Claims -/

/-- C2: a movie passes the GET /movies search filter exactly when its
lowercased title contains the lowercased, trimmed search string as a
substring; the empty search matches every title, and "The Matrix" matches
the searches "matrix", "MATRIX" and "he mat". -/
theorem c2_search_case_insensitive_substring (searchRaw title : String) :
    (matchesSearch (jsToLower (jsTrim searchRaw)) title = true ↔
      jsIncludes (jsToLower title) (jsToLower (jsTrim searchRaw)) = true)
    ∧ matchesSearch (searchKey none) title = true
    ∧ matchesSearch (jsToLower (jsTrim "matrix")) "The Matrix" = true
    ∧ matchesSearch (jsToLower (jsTrim "MATRIX")) "The Matrix" = true
    ∧ matchesSearch (jsToLower (jsTrim "he mat")) "The Matrix" = true := by
  refine ⟨?_, ?_, by decide, by decide, by decide⟩
  · unfold matchesSearch
    by_cases h : (jsToLower (jsTrim searchRaw)).isEmpty
    · rw [if_pos h, (String.isEmpty_iff _).mp h]
      simp [jsIncludes_empty]
    · rw [if_neg h]
  · have : searchKey none = "" := rfl
    rw [this]
    simp [matchesSearch, String.isEmpty_iff]

/-- C8: `readLocalMovies` is a total function (it never raises); it returns the
empty list when the backing document is missing, unreadable, fails to parse, or
parses to a non-array, and otherwise returns the parsed movies in file order. -/
theorem c8_readLocalMovies_graceful (parseJson : String → Option ParsedJson)
    (raw : String) :
    readLocalMovies parseJson .missing = []
    ∧ readLocalMovies parseJson .unreadable = []
    ∧ readLocalMovies parseJson (.content raw) =
        (match parseJson raw with
          | some (.arr ms) => ms
          | some .nonArray => []
          | none => []) := by
  refine ⟨rfl, rfl, ?_⟩
  cases h : parseJson raw with
  | none => simp [readLocalMovies, h]
  | some v => cases v <;> simp [readLocalMovies, h]

/-- C6 (failing input): after a fetch normalizes the upstream record with
`movie_id = 1`, the cache holds `tp_1`, yet GET /movies/tp_1 with an empty
local store still answers 404 — the route handler never consults the cache,
although the cache exists precisely to serve this route. -/
theorem c6_cache_never_consulted :
    getCachedThirdPartyMovie
        (normalizePageIntoCache (fun _ => none) [⟨1, some "Alpha", none, none⟩] []).2
        "tp_1"
      = some ⟨"tp_1", "Alpha", 0, "api"⟩
    ∧ getByIdHandler [] "tp_1" = .notFound "Movie not found" := by
  exact ⟨by decide, rfl⟩

/-- C7: normalization of a raw third-party record: title falls back from
`original_title` to `title` to "Untitled"; year is the calendar year parsed
from `release_date` and 0 when the field is absent or unparseable; id is
`"tp_" + movie_id`; source is `"api"`.  `parseYear` models the JS date parser,
which yields no year on the empty string. -/
theorem c7_normalize_third_party (parseYear : String → Option Int)
    (raw : ThirdPartyMovie) (hEmpty : parseYear "" = none) :
    normalizeThirdPartyMovie parseYear raw =
      { id := "tp_" ++ toString raw.movie_id,
        title := raw.original_title.getD (raw.title.getD "Untitled"),
        year := (match raw.release_date with
          | none => (0 : Int)
          | some d => (parseYear d).getD 0),
        source := "api" } := by
  unfold normalizeThirdPartyMovie
  cases hd : raw.release_date with
  | none => rfl
  | some d =>
    by_cases he : d.isEmpty
    · have hd' : d = "" := (String.isEmpty_iff _).mp he
      subst hd'
      simp [he, hEmpty]
    · simp [he]

/-- Witness for C7 at a concrete record with an unparseable release date. -/
theorem c7_normalize_third_party_witness :
    normalizeThirdPartyMovie (fun _ => none) ⟨7, none, some "Seven", some "bogus"⟩ =
      { id := "tp_7", title := "Seven", year := 0, source := "api" } := by
  have h := c7_normalize_third_party (fun _ => none)
    ⟨7, none, some "Seven", some "bogus"⟩ rfl
  rw [h]
  decide

/-- C5 (counterexample): the claim says 400 exactly when the title is not a
non-empty string; but the body `{title: 5, year: 2020}` has a truthy non-string
title and the handler creates the movie with status 201 instead of 400. -/
theorem c5_counterexample :
    postMovies (.numv (.rat 5)) (.numv (.rat 2020)) 0 =
      .created "local_0" (.numv (.rat 5)) (.numv (.rat 2020))
    ∧ isNonEmptyString (.numv (.rat 5)) = false := by
  exact ⟨by decide, rfl⟩

/-- C5 (amended): the create handler responds 400 exactly when the title is
falsy or the year is not of JS type "number"; an empty title and a string year
both yield 400; otherwise it creates the movie and responds 201 with it. -/
theorem c5_create_validation (title year : JSVal) (now : Nat) :
    ((∃ msg, postMovies title year now = .badRequest msg) ↔
      (truthy title = false ∨ isNumberType year = false))
    ∧ postMovies (.strv "") (.numv (.rat 2020)) now =
        .badRequest "title and year are required"
    ∧ postMovies (.strv "X") (.strv "not-a-number") now =
        .badRequest "title and year are required"
    ∧ (truthy title = true → isNumberType year = true →
        postMovies title year now = .created ("local_" ++ toString now) title year) := by
  refine ⟨?_, rfl, rfl, ?_⟩
  · by_cases h1 : truthy title <;> by_cases h2 : isNumberType year <;>
      simp [postMovies, h1, h2]
  · intro h1 h2
    simp [postMovies, h1, h2]

/-- Witness for C5 at a concrete valid body. -/
theorem c5_create_validation_witness :
    postMovies (.strv "X") (.numv (.rat 2020)) 7 =
      .created ("local_" ++ toString 7) (.strv "X") (.numv (.rat 2020)) :=
  (c5_create_validation (.strv "X") (.numv (.rat 2020)) 7).2.2.2 (by decide) (by decide)

/-- C4 (counterexample): for a non-numeric `page` query value (`Number` gives
`NaN`), the effective page is `NaN`, not an integer ≥ 1 as the claim states
for every input. -/
theorem c4_counterexample :
    ¬ ∃ n : ℤ, 1 ≤ n ∧ effPage (some JSNum.nan) = JSNum.rat (n : ℚ) := by
  rintro ⟨n, -, h⟩
  have hn : effPage (some JSNum.nan) = JSNum.nan := rfl
  rw [hn] at h
  exact JSNum.noConfusion h

/-- C4 (amended): when `page`/`pageSize` are absent or coerce to finite
integers, the effective page is `max 1 page` (an integer ≥ 1, default 1) and
the effective pageSize is `min 50 (max 1 pageSize)` (an integer in [1, 50],
default 12 in one variant and 25 in the other); `NaN` inputs propagate instead. -/
theorem c4_page_coercion (p s : ℤ) (d : ℚ) :
    effPage none = .rat 1
    ∧ effPage (some (.rat (p : ℚ))) = .rat (max 1 (p : ℚ))
    ∧ (∃ n : ℤ, 1 ≤ n ∧ max (1 : ℚ) (p : ℚ) = (n : ℚ))
    ∧ effPageSize (.rat 12) none = .rat 12
    ∧ effPageSize (.rat 25) none = .rat 25
    ∧ effPageSize (.rat d) (some (.rat (s : ℚ))) = .rat (min 50 (max 1 (s : ℚ)))
    ∧ (∃ n : ℤ, 1 ≤ n ∧ n ≤ 50 ∧ min (50 : ℚ) (max 1 (s : ℚ)) = (n : ℚ)) := by
  refine ⟨by norm_num [effPage, jsMax], rfl,
    ⟨max 1 p, le_max_left _ _, by push_cast; rfl⟩,
    by norm_num [effPageSize, jsMin, jsMax],
    by norm_num [effPageSize, jsMin, jsMax], rfl,
    ⟨min 50 (max 1 s), ?_, ?_, by push_cast; rfl⟩⟩
  · omega
  · omega

/-- The "all" branch of `handleList`, spelled out: local slice first, then —
only when it is short of `pageSize` — the filtered upstream page, truncated
to the remaining room.  Definitional restatement used by C1 and C9. -/
theorem handleList_all_eq (page pageSize : Nat) (si : Option String)
    (locals : List Movie) (fetch : Except String (List Movie)) :
    handleList "all" page pageSize si locals fetch =
      (if pageSize - (localSliceOf si page pageSize locals).length > 0 then
        match fetch with
        | .error _ => .error "Failed to load movies"
        | .ok apiMovies =>
          .ok ⟨page, pageSize,
            localSliceOf si page pageSize locals
              ++ (filterBySearch (searchKey si) apiMovies).take
                  (pageSize - (localSliceOf si page pageSize locals).length),
            "all", searchRawOf si, some (filteredLocalOf si locals).length⟩
      else
        .ok ⟨page, pageSize, localSliceOf si page pageSize locals ++ [],
          "all", searchRawOf si, some (filteredLocalOf si locals).length⟩) := rfl

/-- C1: for `source=all`, the handler returns the local slice
`filteredLocal[start : start+pageSize]` followed by the first
`pageSize - localSlice.length` search-filtered upstream records, so every local
item precedes every third-party item and at most `pageSize` items are returned;
when the local slice already fills the page the result does not depend on the
upstream fetch at all. -/
theorem c1_all_local_then_api (page pageSize : Nat) (si : Option String)
    (locals apiMovies : List Movie) :
    handleList "all" page pageSize si locals (.ok apiMovies) =
      .ok ⟨page, pageSize,
        localSliceOf si page pageSize locals
          ++ (filterBySearch (searchKey si) apiMovies).take
              (pageSize - (localSliceOf si page pageSize locals).length),
        "all", searchRawOf si, some (filteredLocalOf si locals).length⟩
    ∧ (localSliceOf si page pageSize locals
        ++ (filterBySearch (searchKey si) apiMovies).take
            (pageSize - (localSliceOf si page pageSize locals).length)).length ≤ pageSize
    ∧ (pageSize ≤ (localSliceOf si page pageSize locals).length →
        ∀ fetch, handleList "all" page pageSize si locals fetch =
          handleList "all" page pageSize si locals (.ok [])) := by
  have hls : (localSliceOf si page pageSize locals).length ≤ pageSize :=
    jsSlice_length_le _ _ _
  refine ⟨?_, ?_, ?_⟩
  · rw [handleList_all_eq]
    by_cases hr : pageSize - (localSliceOf si page pageSize locals).length > 0
    · rw [if_pos hr]
    · rw [if_neg hr]
      have h0 : pageSize - (localSliceOf si page pageSize locals).length = 0 := by
        omega
      rw [h0, List.take_zero]
  · have := List.length_take_le
      (pageSize - (localSliceOf si page pageSize locals).length)
      (filterBySearch (searchKey si) apiMovies)
    rw [List.length_append]
    omega
  · intro hge fetch
    have h0 : ¬ pageSize - (localSliceOf si page pageSize locals).length > 0 := by
      omega
    rw [handleList_all_eq, if_neg h0, handleList_all_eq, if_neg h0]

/-- Witness for C1: with one matching local movie and pageSize 1, the page is
full, so a failing upstream fetch yields the same response as no upstream data. -/
theorem c1_all_local_then_api_witness :
    handleList "all" 1 1 none [⟨"local_1", "Alpha", 2000, "local"⟩] (.error "boom") =
      handleList "all" 1 1 none [⟨"local_1", "Alpha", 2000, "local"⟩] (.ok []) :=
  (c1_all_local_then_api 1 1 none [⟨"local_1", "Alpha", 2000, "local"⟩] []).2.2
    (by decide) (.error "boom")

/-- C3 (counterexample): the claim asserts every item returned by the `local`
branch has `source = "local"` for every backing collection; but the store
returns the parsed file verbatim, so a document containing a movie whose
`source` is `"api"` is served unchanged by `source=local`. -/
theorem c3_counterexample :
    handleList "local" 1 1 none [⟨"x", "T", 2000, "api"⟩] (.ok []) =
      .ok ⟨1, 1, [⟨"x", "T", 2000, "api"⟩], "local", "", some 1⟩
    ∧ (⟨"x", "T", 2000, "api"⟩ : Movie).source ≠ "local" := by
  exact ⟨rfl, by decide⟩

/-- C3 (amended): for `source=local` the items equal
`filteredLocal[start : start+pageSize]`, hence at most `pageSize` of them; and
provided every movie in the backing collection has `source = "local"` (as holds
for documents this system writes), so does every returned item. -/
theorem c3_local_branch (page pageSize : Nat) (si : Option String)
    (locals : List Movie) (fetch : Except String (List Movie))
    (hsrc : ∀ m ∈ locals, m.source = "local") :
    handleList "local" page pageSize si locals fetch =
      .ok ⟨page, pageSize, localSliceOf si page pageSize locals, "local",
        searchRawOf si, some (filteredLocalOf si locals).length⟩
    ∧ (localSliceOf si page pageSize locals).length ≤ pageSize
    ∧ ∀ m ∈ localSliceOf si page pageSize locals, m.source = "local" := by
  refine ⟨rfl, jsSlice_length_le _ _ _, ?_⟩
  intro m hm
  have hmem : m ∈ filteredLocalOf si locals := jsSlice_subset _ _ _ hm
  exact hsrc m (List.mem_filter.mp hmem).1

/-- Witness for C3's amended statement at a concrete all-local collection. -/
theorem c3_local_branch_witness :
    handleList "local" 1 2 none [⟨"local_1", "Alpha", 2000, "local"⟩] (.ok []) =
      .ok ⟨1, 2, localSliceOf none 1 2 [⟨"local_1", "Alpha", 2000, "local"⟩], "local",
        searchRawOf none,
        some (filteredLocalOf none [⟨"local_1", "Alpha", 2000, "local"⟩]).length⟩
    ∧ (localSliceOf none 1 2 [⟨"local_1", "Alpha", 2000, "local"⟩]).length ≤ 2
    ∧ ∀ m ∈ localSliceOf none 1 2 [⟨"local_1", "Alpha", 2000, "local"⟩],
        m.source = "local" :=
  c3_local_branch 1 2 none [⟨"local_1", "Alpha", 2000, "local"⟩] (.ok [])
    (by decide)

/-- C9: when the filtered local slice already fills the page, the `all` branch
never touches the third-party fetch: for every fetch outcome (including
failure) it succeeds with exactly those `pageSize` local items. -/
theorem c9_full_local_page_skips_fetch (page pageSize : Nat) (si : Option String)
    (locals : List Movie) (fetch : Except String (List Movie))
    (h : (localSliceOf si page pageSize locals).length = pageSize) :
    handleList "all" page pageSize si locals fetch =
      .ok ⟨page, pageSize, localSliceOf si page pageSize locals ++ [], "all",
        searchRawOf si, some (filteredLocalOf si locals).length⟩
    ∧ (localSliceOf si page pageSize locals ++ ([] : List Movie)).length = pageSize := by
  have h0 : ¬ pageSize - (localSliceOf si page pageSize locals).length > 0 := by
    omega
  refine ⟨?_, ?_⟩
  · rw [handleList_all_eq, if_neg h0]
  · rw [List.length_append]
    simpa using h

/-- Witness for C9: one matching local movie, pageSize 1, and a failing fetch. -/
theorem c9_full_local_page_skips_fetch_witness :
    handleList "all" 1 1 none [⟨"local_1", "Alpha", 2000, "local"⟩] (.error "boom") =
      .ok ⟨1, 1, localSliceOf none 1 1 [⟨"local_1", "Alpha", 2000, "local"⟩] ++ [], "all",
        searchRawOf none,
        some (filteredLocalOf none [⟨"local_1", "Alpha", 2000, "local"⟩]).length⟩
    ∧ (localSliceOf none 1 1 [⟨"local_1", "Alpha", 2000, "local"⟩]
        ++ ([] : List Movie)).length = 1 :=
  c9_full_local_page_skips_fetch 1 1 none [⟨"local_1", "Alpha", 2000, "local"⟩]
    (.error "boom") (by decide)

/-- C10: when the start index is at or past the end of the filtered local
collection, the `local` branch succeeds with an empty items list and
`meta.localCount` equal to the filtered local total — never an error. -/
theorem c10_local_past_end_empty (page pageSize : Nat) (si : Option String)
    (locals : List Movie) (fetch : Except String (List Movie))
    (h : (filteredLocalOf si locals).length ≤ (page - 1) * pageSize) :
    handleList "local" page pageSize si locals fetch =
      .ok ⟨page, pageSize, [], "local", searchRawOf si,
        some (filteredLocalOf si locals).length⟩ := by
  have hnil : localSliceOf si page pageSize locals = [] := by
    unfold localSliceOf jsSlice
    rw [List.drop_eq_nil_of_le h, List.take_nil]
  calc handleList "local" page pageSize si locals fetch
      = .ok ⟨page, pageSize, localSliceOf si page pageSize locals, "local",
          searchRawOf si, some (filteredLocalOf si locals).length⟩ := rfl
    _ = .ok ⟨page, pageSize, [], "local", searchRawOf si,
          some (filteredLocalOf si locals).length⟩ := by rw [hnil]

/-- Witness for C10: page 2 of an empty local collection. -/
theorem c10_local_past_end_empty_witness :
    handleList "local" 2 5 none [] (.error "boom") =
      .ok ⟨2, 5, [], "local", searchRawOf none,
        some (filteredLocalOf none []).length⟩ :=
  c10_local_past_end_empty 2 5 none [] (.error "boom") (by decide)
